import Mathlib

/-!
# Verification of the automatic-screenshots background worker

A shallow embedding of `src/background.js` (a Chrome extension background
service worker) together with proofs about its behaviour.

The embedding covers:
* the fixed configuration constants and the `TARGET_URLS` list;
* `getRandomUrl` (random selection driven by a value in `[0,1)`);
* the filename generation inside `saveScreenshot`;
* the `waitForPageLoad` promise executor, modelled as a small event system
  (registrations performed by the executor, then a timed trace of timer,
  tab-update and status-query events);
* the top-level worker state (`isRunning`, `intervalId`, `currentTabId`,
  `chrome.storage.local`) and the operations `startAutomatedScreenshots`,
  `stopAutomatedScreenshots`, `takeScreenshot`, `updateStats`, and the
  message handlers.
-/

namespace Background

/-! ## Configuration constants (background.js lines 7-16) -/

/-- The fixed list of target URLs (`TARGET_URLS`). -/
def TARGET_URLS : List String :=
  ["https://www.competitiondatabase.co.uk",
   "https://www.facebook.com",
   "https://www.google.com",
   "https://www.yahoo.com"]

/-- `SCREENSHOT_INTERVAL = 60000` (one minute, in milliseconds). -/
def SCREENSHOT_INTERVAL : Nat := 60000

/-- `PAGE_LOAD_TIMEOUT = 15000` (fifteen seconds, in milliseconds). -/
def PAGE_LOAD_TIMEOUT : Nat := 15000

/-! ## getRandomUrl (background.js lines 103-106)

`Math.random()` returns a value `r` with `0 ≤ r < 1`; the code computes
`Math.floor(r * TARGET_URLS.length)` and indexes the list.  We model the
random draw as a rational number and JavaScript array indexing (which
yields `undefined` out of bounds) as `Option`. -/

/-- The index computed by `getRandomUrl`: `Math.floor(randomVal * TARGET_URLS.length)`. -/
def randomIndex (r : ℚ) : Nat :=
  (⌊r * (TARGET_URLS.length : ℚ)⌋).toNat

/-- `getRandomUrl`: `TARGET_URLS[Math.floor(Math.random() * TARGET_URLS.length)]`.
`none` models the out-of-bounds result `undefined` (unreachable for a real
`Math.random()` value). -/
def getRandomUrl (r : ℚ) : Option String :=
  TARGET_URLS[randomIndex r]?

/-! ## Filename generation in saveScreenshot (background.js lines 200-202)

```js
const urlDomain = new URL(sourceUrl).hostname.replace('www.', '');
const timestamp = new Date().toISOString().replace(/[:.]/g, '-').slice(0, -5);
const filename = `screenshot_${urlDomain}_${timestamp}.png`;
```

`String.prototype.replace` with a plain-string pattern replaces the FIRST
occurrence of the pattern, wherever it appears. -/

/-- Replace the first occurrence of `pat` in the list (JavaScript
`String.prototype.replace` with a string pattern, for nonempty `pat`). -/
def replaceFirstList (pat repl : List Char) : List Char → List Char
  | [] => []
  | c :: cs =>
    if pat.isPrefixOf (c :: cs) then repl ++ (c :: cs).drop pat.length
    else c :: replaceFirstList pat repl cs

/-- `s.replace(pat, repl)` for a plain-string (non-regex), nonempty `pat`. -/
def jsReplaceFirst (s pat repl : String) : String :=
  ⟨replaceFirstList pat.data repl.data s.data⟩

/-- Characters after the first `://` separator. -/
def schemeRest : List Char → List Char
  | [] => []
  | ':' :: '/' :: '/' :: rest => rest
  | _ :: cs => schemeRest cs

/-- A character that ends the host component of a URL. -/
def hostTerminator (c : Char) : Bool :=
  c == '/' || c == ':' || c == '?' || c == '#'

/-- Model of the WHATWG `URL.hostname` getter, restricted to the already
normalized `http`/`https` URLs (no userinfo, lowercase ASCII host) this
program feeds it: the characters after `://` up to the first `/`, `:`,
`?` or `#`. -/
def urlHostname (url : String) : String :=
  ⟨(schemeRest url.data).takeWhile (fun c => !hostTerminator c)⟩

/-- `new Date().toISOString().replace(/[:.]/g, '-').slice(0, -5)`: every
colon and period becomes a dash, then the last five characters (the dash
that replaced the decimal point, the three millisecond digits, and the
trailing `Z`) are dropped. -/
def sanitizeTimestamp (iso : String) : String :=
  let replaced := iso.data.map (fun c => if c == ':' || c == '.' then '-' else c)
  ⟨replaced.take (replaced.length - 5)⟩

/-- Filename generation in `saveScreenshot`, as the code computes it. -/
def generateFilename (sourceUrl isoNow : String) : String :=
  "screenshot_" ++ jsReplaceFirst (urlHostname sourceUrl) "www." "" ++ "_"
    ++ sanitizeTimestamp isoNow ++ ".png"

/-- The host transformation as the spec words it: strip a LEADING `www.`
prefix of the hostname, leaving any non-leading occurrence alone.  Kept
for comparison with `generateFilename`, which uses the first-occurrence
replacement the code performs. -/
def stripLeadingWww (host : String) : String :=
  if "www.".data.isPrefixOf host.data then ⟨host.data.drop 4⟩ else host

/-- Filename generation as described by the spec sentence. -/
def generateFilenameSpec (sourceUrl isoNow : String) : String :=
  "screenshot_" ++ stripLeadingWww (urlHostname sourceUrl) ++ "_"
    ++ sanitizeTimestamp isoNow ++ ".png"

/-! ## waitForPageLoad (background.js lines 130-170)

The promise executor runs synchronously and, in source order,
1. registers the 15-second timeout (line 141),
2. registers the `chrome.tabs.onUpdated` listener (line 156),
3. issues the `chrome.tabs.get(tabId)` status query (line 159), whose
   `.then`/`.catch` callbacks run asynchronously later.

After the executor returns, the runtime delivers events: the timeout
callback firing (only if the timer is still registered), `onUpdated`
notifications (delivered only while the listener is registered), and the
resolution of the status query (whose callback runs regardless of the
state of the race, since nothing unregisters it).  We model a cycle of
`waitForPageLoad` as the executor followed by a fold over a timed trace
of such events. -/

/-- A tab status as reported by `chrome.tabs.get` / `changeInfo.status`. -/
inductive TabStatus
  | loading
  | complete
deriving DecidableEq, Repr

/-- State of one `waitForPageLoad` cycle. -/
structure WaitState where
  /-- the `setTimeout` timer is registered (not yet cleared or fired) -/
  timerActive : Bool := false
  /-- `loadingListener` is registered on `chrome.tabs.onUpdated` -/
  listenerActive : Bool := false
  /-- the promise has resolved -/
  resolved : Bool := false
  /-- time at which the promise first resolved -/
  resolvedAt : Option Nat := none
  /-- how many times the timeout callback body has run -/
  timerFirings : Nat := 0
  /-- how many matching load-complete notifications the listener body observed -/
  loadCompletions : Nat := 0
  /-- the `chrome.tabs.get` status query has been issued -/
  queryIssued : Bool := false
  /-- whether the timer was already registered when the query was issued -/
  timerActiveAtQuery : Bool := false
  /-- whether the listener was already registered when the query was issued -/
  listenerActiveAtQuery : Bool := false
deriving DecidableEq, Repr

/-- `cleanup()` (lines 135-138): clear the pending timeout and remove the
`onUpdated` listener. -/
def cleanup (s : WaitState) : WaitState :=
  { s with timerActive := false, listenerActive := false }

/-- `resolve()` at time `t`: promise resolution is first-settlement-wins. -/
def resolveAt (t : Nat) (s : WaitState) : WaitState :=
  if s.resolved then s else { s with resolved := true, resolvedAt := some t }

/-- The synchronous actions the executor performs, in source order. -/
inductive ExecAction
  | registerTimeout
  | registerListener
  | issueStatusQuery
deriving DecidableEq, Repr

def execAction (s : WaitState) : ExecAction → WaitState
  | .registerTimeout => { s with timerActive := true }
  | .registerListener => { s with listenerActive := true }
  | .issueStatusQuery =>
      { s with queryIssued := true,
               timerActiveAtQuery := s.timerActive,
               listenerActiveAtQuery := s.listenerActive }

/-- The executor of the `waitForPageLoad` promise, in source order:
`setTimeout` (line 141), `chrome.tabs.onUpdated.addListener` (line 156),
`chrome.tabs.get(tabId)` (line 159). -/
def waitForPageLoadExec : List ExecAction :=
  [.registerTimeout, .registerListener, .issueStatusQuery]

/-- The state right after the executor returns. -/
def initWaitState : WaitState :=
  waitForPageLoadExec.foldl execAction {}

/-- Asynchronous events delivered to one `waitForPageLoad` cycle. -/
inductive WEvent
  /-- the `setTimeout` deadline arrives (the callback runs only if the
      timer has not been cleared) -/
  | timerFire
  /-- a `chrome.tabs.onUpdated` notification for tab `tid` whose
      `changeInfo.status` is `status` (absent statuses are `none`) -/
  | tabUpdated (tid : Nat) (status : Option TabStatus)
  /-- the `chrome.tabs.get(tabId)` promise settles: `some st` is a tab
      with that status, `none` is a rejection (the `.catch` branch) -/
  | getResolved (result : Option TabStatus)
deriving DecidableEq, Repr

/-- One event step of the `waitForPageLoad` race (lines 141-168). -/
def wstep (tabId : Nat) (s : WaitState) (t : Nat) : WEvent → WaitState
  | .timerFire =>
      if s.timerActive then
        resolveAt t (cleanup { s with timerFirings := s.timerFirings + 1 })
      else s
  | .tabUpdated tid status =>
      if s.listenerActive then
        if tid = tabId ∧ status = some .complete then
          resolveAt t (cleanup { s with loadCompletions := s.loadCompletions + 1 })
        else s
      else s
  | .getResolved result =>
      match result with
      | some .complete => resolveAt t (cleanup s)
      | some .loading => s
      | none => resolveAt t (cleanup s)

/-- Run a timed trace of events from a given state. -/
def runFrom (tabId : Nat) (s : WaitState) (trace : List (Nat × WEvent)) : WaitState :=
  trace.foldl (fun s te => wstep tabId s te.1 te.2) s

/-- One full `waitForPageLoad` cycle: the executor, then the trace. -/
def runTrace (tabId : Nat) (trace : List (Nat × WEvent)) : WaitState :=
  runFrom tabId initWaitState trace

/-! ## Worker state and the capture cycle (background.js lines 2-4, 30-100, 227-273)

`chrome.storage.local` holds the three keys the worker ever writes
(`isRunning`, `lastRun`, `totalScreenshots`); each may be absent.  The
in-memory globals are `isRunning`, `intervalId` and `currentTabId`.  A
cycle (`takeScreenshot`) is driven by an environment recording the
`Math.random()` draw, the id of the tab acquired by `createOrUpdateTab`
(which always yields a tab: it falls back to `chrome.tabs.create`), and
whether each fallible external call succeeds. -/

/-- The `chrome.storage.local` keys this worker uses.  `none` = key absent. -/
structure Storage where
  isRunning : Option Bool := none
  lastRun : Option String := none
  totalScreenshots : Option Nat := none
deriving DecidableEq, Repr

/-- In-memory worker state plus observable side effects. -/
structure BGState where
  /-- global `isRunning` flag (line 2) -/
  isRunning : Bool := false
  /-- global `intervalId` (line 3) -/
  intervalId : Option Nat := none
  /-- global `currentTabId` (line 4) -/
  currentTabId : Option Nat := none
  /-- the active `setInterval` schedules: (timer id, period in ms) -/
  intervals : List (Nat × Nat) := []
  /-- persisted `chrome.storage.local` contents -/
  storage : Storage := {}
  /-- filenames handed to `chrome.downloads.download`, most recent first -/
  downloads : List String := []
  /-- how many times `takeScreenshot()` has been invoked -/
  cyclesInvoked : Nat := 0
deriving DecidableEq, Repr

/-- Errors a cycle can raise (spec taxonomy §7). -/
inductive CycleError
  /-- `TARGET_URLS[...]` was `undefined` (out-of-range draw; unreachable
      for a real `Math.random()` value) -/
  | selectionFailed
  /-- `captureScreenshot` rethrew (line 192) -/
  | captureError
  /-- `saveScreenshot` rethrew (line 222) -/
  | persistError
deriving DecidableEq, Repr

/-- `StatsUpdateError`: the storage get or set inside `updateStats` rejected. -/
inductive StatsUpdateError
  | getFailed
  | setFailed
deriving DecidableEq, Repr

/-- The per-cycle environment: the random draw and the outcome of each
fallible external call. -/
structure CycleEnv where
  /-- the `Math.random()` draw in `getRandomUrl` -/
  randomVal : ℚ
  /-- id of the tab returned by `createOrUpdateTab` -/
  tabId : Nat
  /-- `chrome.tabs.captureVisibleTab` (and the preceding activation) succeeds -/
  captureOk : Bool
  /-- the fetch/blob/`chrome.downloads.download` sequence succeeds -/
  saveOk : Bool
  /-- `chrome.storage.local.get` inside `updateStats` succeeds -/
  statsGetOk : Bool
  /-- `chrome.storage.local.set` inside `updateStats` succeeds -/
  statsSetOk : Bool
  /-- `new Date().toISOString()` during this cycle -/
  now : String
deriving DecidableEq, Repr

/-- The fallible body of `updateStats` (lines 229-235): get the current
count (defaulting a missing or falsy key to 0), then set count + 1 and a
fresh `lastRun`. -/
def updateStatsInner (st : Storage) (getOk setOk : Bool) (now : String) :
    Except StatsUpdateError Storage :=
  if getOk then
    if setOk then
      .ok { st with totalScreenshots := some (st.totalScreenshots.getD 0 + 1),
                    lastRun := some now }
    else .error .setFailed
  else .error .getFailed

/-- `updateStats` (lines 227-240): the body inside `try`, with any
`StatsUpdateError` caught, logged and absorbed (the catch block at
lines 237-239 leaves storage as it was). -/
def updateStats (st : Storage) (getOk setOk : Bool) (now : String) : Storage :=
  match updateStatsInner st getOk setOk now with
  | .ok st' => st'
  | .error _ => st

/-- The `try` block of `takeScreenshot` (lines 71-95), step by step:
select a URL, acquire a tab (always yields one) and record its id in
`currentTabId`, wait for load (always resolves — see
`waitForPageLoad_resolves`), capture, save (recording the download),
update stats.  Returns the state as mutated so far plus the error the
`catch` will receive, if any. -/
def runCycleSteps (env : CycleEnv) (s : BGState) : BGState × Option CycleError :=
  match getRandomUrl env.randomVal with
  | none => (s, some .selectionFailed)
  | some url =>
    let s := { s with currentTabId := some env.tabId }
    if env.captureOk then
      if env.saveOk then
        let s := { s with downloads := generateFilename url env.now :: s.downloads }
        ({ s with storage := updateStats s.storage env.statsGetOk env.statsSetOk env.now },
          none)
      else (s, some .persistError)
    else (s, some .captureError)

/-- `takeScreenshot` (lines 70-100): the whole body is wrapped in
`try`/`catch`; the catch block (lines 96-99) only logs, so the async
function always returns normally and its promise always fulfills. -/
def takeScreenshot (env : CycleEnv) (s : BGState) : BGState :=
  { (runCycleSteps env s).1 with cyclesInvoked := s.cyclesInvoked + 1 }

/-- The settlement of the promise returned by `takeScreenshot()`: `.ok`
because the body catches every error (lines 96-99). -/
def takeScreenshotOutcome (env : CycleEnv) (s : BGState) :
    BGState × Except String Unit :=
  (takeScreenshot env s, .ok ())

/-- `startAutomatedScreenshots` (lines 30-53): no-op if already running;
otherwise set the flag, invoke one cycle immediately, register the
60000 ms interval, and overwrite the stored state with
`isRunning: true`, a fresh `lastRun`, and `totalScreenshots: 0`. -/
def startAutomatedScreenshots (s : BGState) (now : String) (newId : Nat) : BGState :=
  if s.isRunning then s
  else
    { s with
        isRunning := true,
        cyclesInvoked := s.cyclesInvoked + 1,
        intervalId := some newId,
        intervals := (newId, SCREENSHOT_INTERVAL) :: s.intervals,
        storage := { isRunning := some true, lastRun := some now,
                     totalScreenshots := some 0 } }

/-- `stopAutomatedScreenshots` (lines 56-67): no-op if not running;
otherwise clear the flag, cancel the interval if one is recorded, and
persist `isRunning: false`. -/
def stopAutomatedScreenshots (s : BGState) : BGState :=
  if !s.isRunning then s
  else
    let s := { s with isRunning := false }
    let s :=
      match s.intervalId with
      | some id =>
          { s with intervals := s.intervals.filter (fun p => p.1 != id),
                   intervalId := none }
      | none => s
    { s with storage := { s.storage with isRunning := some false } }

/-- A response sent through `sendResponse`. -/
structure MsgResponse where
  success : Bool
  error : Option String := none
deriving DecidableEq, Repr

/-- The `takeScreenshotNow` message handler (lines 265-271):
`takeScreenshot().then(() => success: true).catch(e => success: false)`. -/
def handleTakeScreenshotNow (env : CycleEnv) (s : BGState) : BGState × MsgResponse :=
  match takeScreenshotOutcome env s with
  | (s', .ok _) => (s', { success := true })
  | (s', .error e) => (s', { success := false, error := some e })

/-- The `start` message handler (lines 255-258). -/
def handleStart (s : BGState) (now : String) (newId : Nat) : BGState × MsgResponse :=
  (startAutomatedScreenshots s now newId, { success := true })

/-- The `stop` message handler (lines 260-263): unconditionally
acknowledges with `success: true`. -/
def handleStop (s : BGState) : BGState × MsgResponse :=
  (stopAutomatedScreenshots s, { success := true })

/-- One externally triggered transition of the worker. -/
inductive Cmd
  /-- a `start` command (or `onStartup`/`onInstalled`) -/
  | start (now : String) (newId : Nat)
  /-- a `stop` command (or `onSuspend`) -/
  | stop
  /-- one invocation of `takeScreenshot` (scheduled or `takeScreenshotNow`) -/
  | cycle (env : CycleEnv)
  /-- a `getStatus` command (reads only) -/
  | getStatus
deriving DecidableEq, Repr

def step (s : BGState) : Cmd → BGState
  | .start now newId => startAutomatedScreenshots s now newId
  | .stop => stopAutomatedScreenshots s
  | .cycle env => takeScreenshot env s
  | .getStatus => s

/-- The persisted screenshot counter, with an absent key read as 0 (the
`result.totalScreenshots || 0` idiom). -/
def totalCount (s : BGState) : Nat :=
  s.storage.totalScreenshots.getD 0

/-- Sample: a running worker with five recorded screenshots. -/
def sampleRunning : BGState :=
  { isRunning := true, intervalId := some 1,
    intervals := [(1, SCREENSHOT_INTERVAL)],
    storage := { isRunning := some true,
                 lastRun := some "2024-01-15T10:29:00",
                 totalScreenshots := some 5 } }

/-- Sample: a stopped worker that still holds an old count of 42. -/
def sampleStopped : BGState :=
  { storage := { isRunning := some false,
                 lastRun := some "2024-01-14T09:00:00",
                 totalScreenshots := some 42 } }

/-- Sample environment: every external call of the cycle succeeds. -/
def envSuccess : CycleEnv :=
  { randomVal := 1/2, tabId := 3, captureOk := true, saveOk := true,
    statsGetOk := true, statsSetOk := true,
    now := "2024-01-15T10:30:00.000Z" }

/-- Sample environment: the save step fails, everything else succeeds. -/
def envSaveFail : CycleEnv := { envSuccess with saveOk := false }

/-- Sample environment: the stats-update get fails, everything else succeeds. -/
def envStatsFail : CycleEnv := { envSuccess with statsGetOk := false }

/-! ## Theorems -/

theorem TARGET_URLS_length : TARGET_URLS.length = 4 := rfl

/-- For a draw in `[0,1)` the computed index is in bounds. -/
theorem randomIndex_lt (r : ℚ) (h0 : 0 ≤ r) (h1 : r < 1) :
    randomIndex r < TARGET_URLS.length := by
  have h4 : r * (TARGET_URLS.length : ℚ) < 4 := by
    rw [TARGET_URLS_length]
    push_cast
    nlinarith
  have hfloor : ⌊r * (TARGET_URLS.length : ℚ)⌋ < (4 : ℤ) := by
    rw [Int.floor_lt]
    push_cast
    exact h4
  rw [TARGET_URLS_length]
  unfold randomIndex
  omega

/-- The preimage characterization behind uniformity: the index equals `k`
exactly when the draw lands in the width-`1/4` window `[k/4, (k+1)/4)`. -/
theorem randomIndex_eq_iff (r : ℚ) (k : ℕ) (h0 : 0 ≤ r) (hk : k < 4) :
    randomIndex r = k ↔ ((k : ℚ) / 4 ≤ r ∧ r < ((k : ℚ) + 1) / 4) := by
  unfold randomIndex
  rw [TARGET_URLS_length]
  push_cast
  have hnn : 0 ≤ ⌊r * (4 : ℚ)⌋ := Int.floor_nonneg.mpr (by nlinarith)
  constructor
  · intro h
    have hfl : ⌊r * (4 : ℚ)⌋ = (k : ℤ) := by omega
    have hiff := Int.floor_eq_iff.mp hfl
    constructor
    · have := hiff.1
      push_cast at this
      linarith
    · have := hiff.2
      push_cast at this
      linarith
  · intro ⟨hlo, hhi⟩
    have hfl : ⌊r * (4 : ℚ)⌋ = (k : ℤ) := by
      apply Int.floor_eq_iff.mpr
      constructor
      · push_cast
        linarith
      · push_cast
        linarith
    omega

theorem replaceFirstList_of_match (pat repl l : List Char)
    (hne : pat ≠ []) (h : pat.isPrefixOf l = true) :
    replaceFirstList pat repl l = repl ++ l.drop pat.length := by
  cases l with
  | nil =>
    cases pat with
    | nil => exact absurd rfl hne
    | cons p ps => simp [List.isPrefixOf] at h
  | cons c cs => simp [replaceFirstList, h]

theorem runFrom_cons (tabId : Nat) (s : WaitState) (te : Nat × WEvent)
    (rest : List (Nat × WEvent)) :
    runFrom tabId s (te :: rest) = runFrom tabId (wstep tabId s te.1 te.2) rest := rfl

theorem runFrom_append (tabId : Nat) (s : WaitState) (l₁ l₂ : List (Nat × WEvent)) :
    runFrom tabId s (l₁ ++ l₂) = runFrom tabId (runFrom tabId s l₁) l₂ :=
  List.foldl_append ..

theorem resolveAt_resolved (t : Nat) (s : WaitState) :
    (resolveAt t s).resolved = true := by
  unfold resolveAt
  split
  · assumption
  · rfl

theorem resolveAt_cleanup_flags (t : Nat) (s : WaitState) :
    (resolveAt t (cleanup s)).timerActive = false ∧
      (resolveAt t (cleanup s)).listenerActive = false := by
  unfold resolveAt cleanup
  split
  · exact ⟨rfl, rfl⟩
  · exact ⟨rfl, rfl⟩

/-- Once the promise is resolved, a further event step changes nothing,
provided cleanup has already run (both registrations gone). -/
theorem wstep_frozen (tabId : Nat) (s : WaitState) (t : Nat) (e : WEvent)
    (hr : s.resolved = true) (ht : s.timerActive = false)
    (hl : s.listenerActive = false) :
    wstep tabId s t e = s := by
  have hclean : cleanup s = s := by
    cases s
    simp_all [cleanup]
  have hres : resolveAt t s = s := by
    unfold resolveAt
    simp [hr]
  cases e with
  | timerFire => simp [wstep, ht]
  | tabUpdated tid status => simp [wstep, hl]
  | getResolved result =>
    cases result with
    | none => simp [wstep, hclean, hres]
    | some st =>
      cases st with
      | loading => rfl
      | complete => simp [wstep, hclean, hres]

theorem runFrom_frozen (tabId : Nat) (s : WaitState) (trace : List (Nat × WEvent))
    (hr : s.resolved = true) (ht : s.timerActive = false)
    (hl : s.listenerActive = false) :
    runFrom tabId s trace = s := by
  induction trace with
  | nil => rfl
  | cons te rest ih =>
    rw [runFrom_cons, wstep_frozen tabId s te.1 te.2 hr ht hl]
    exact ih

/-- Every resolution path runs `cleanup` first: a resolved state has no
registered timer and no registered listener. -/
theorem wstep_cleaned (tabId : Nat) (s : WaitState) (t : Nat) (e : WEvent)
    (h : s.resolved = true → s.timerActive = false ∧ s.listenerActive = false) :
    (wstep tabId s t e).resolved = true →
      (wstep tabId s t e).timerActive = false ∧
        (wstep tabId s t e).listenerActive = false := by
  cases e with
  | timerFire =>
    simp only [wstep]
    split
    · exact fun _ => resolveAt_cleanup_flags t _
    · exact h
  | tabUpdated tid status =>
    simp only [wstep]
    split
    · split
      · exact fun _ => resolveAt_cleanup_flags t _
      · exact h
    · exact h
  | getResolved result =>
    cases result with
    | none => exact fun _ => resolveAt_cleanup_flags t _
    | some st =>
      cases st with
      | loading => exact h
      | complete => exact fun _ => resolveAt_cleanup_flags t _

theorem runFrom_cleaned (tabId : Nat) (s : WaitState) (trace : List (Nat × WEvent))
    (h : s.resolved = true → s.timerActive = false ∧ s.listenerActive = false) :
    (runFrom tabId s trace).resolved = true →
      (runFrom tabId s trace).timerActive = false ∧
        (runFrom tabId s trace).listenerActive = false := by
  induction trace generalizing s with
  | nil => exact h
  | cons te rest ih =>
    rw [runFrom_cons]
    exact ih _ (wstep_cleaned tabId s te.1 te.2 h)

/-- Promise resolution is stable: once resolved, an event step keeps the
promise resolved with the same resolution time. -/
theorem wstep_resolved_mono (tabId : Nat) (s : WaitState) (t : Nat) (e : WEvent)
    (hr : s.resolved = true) :
    (wstep tabId s t e).resolved = true ∧
      (wstep tabId s t e).resolvedAt = s.resolvedAt := by
  cases e with
  | timerFire =>
    simp only [wstep]
    split
    · unfold resolveAt cleanup
      simp [hr]
    · exact ⟨hr, rfl⟩
  | tabUpdated tid status =>
    simp only [wstep]
    split
    · split
      · unfold resolveAt cleanup
        simp [hr]
      · exact ⟨hr, rfl⟩
    · exact ⟨hr, rfl⟩
  | getResolved result =>
    cases result with
    | none =>
      unfold wstep resolveAt cleanup
      simp [hr]
    | some st =>
      cases st with
      | loading => exact ⟨hr, rfl⟩
      | complete =>
        unfold wstep resolveAt cleanup
        simp [hr]

theorem runFrom_resolved_mono (tabId : Nat) (s : WaitState)
    (trace : List (Nat × WEvent)) (hr : s.resolved = true) :
    (runFrom tabId s trace).resolved = true ∧
      (runFrom tabId s trace).resolvedAt = s.resolvedAt := by
  induction trace generalizing s with
  | nil => exact ⟨hr, rfl⟩
  | cons te rest ih =>
    rw [runFrom_cons]
    obtain ⟨h1, h2⟩ := wstep_resolved_mono tabId s te.1 te.2 hr
    obtain ⟨h3, h4⟩ := ih _ h1
    exact ⟨h3, h4.trans h2⟩

/-- From an unresolved state, an event step either leaves the promise
unresolved with no resolution time, or resolves it at the time of that
very event. -/
theorem wstep_resolve_cases (tabId : Nat) (s : WaitState) (t : Nat) (e : WEvent)
    (hr : s.resolved = false) (ha : s.resolvedAt = none) :
    ((wstep tabId s t e).resolved = false ∧ (wstep tabId s t e).resolvedAt = none) ∨
      ((wstep tabId s t e).resolved = true ∧
        (wstep tabId s t e).resolvedAt = some t) := by
  cases e with
  | timerFire =>
    simp only [wstep]
    split
    · right
      unfold resolveAt cleanup
      simp [hr]
    · exact Or.inl ⟨hr, ha⟩
  | tabUpdated tid status =>
    simp only [wstep]
    split
    · split
      · right
        unfold resolveAt cleanup
        simp [hr]
      · exact Or.inl ⟨hr, ha⟩
    · exact Or.inl ⟨hr, ha⟩
  | getResolved result =>
    cases result with
    | none =>
      right
      unfold wstep resolveAt cleanup
      simp [hr]
    | some st =>
      cases st with
      | loading => exact Or.inl ⟨hr, ha⟩
      | complete =>
        right
        unfold wstep resolveAt cleanup
        simp [hr]

/-- Resolution-time bound: folding events whose times are all at most `T`
from an unresolved state either stays unresolved or resolves at a time at
most `T`. -/
theorem runFrom_resolve_bound (tabId : Nat) (s : WaitState)
    (trace : List (Nat × WEvent)) (T : Nat)
    (hr : s.resolved = false) (ha : s.resolvedAt = none)
    (hT : ∀ te ∈ trace, te.1 ≤ T) :
    ((runFrom tabId s trace).resolved = false ∧
      (runFrom tabId s trace).resolvedAt = none) ∨
      ((runFrom tabId s trace).resolved = true ∧
        ∃ t, (runFrom tabId s trace).resolvedAt = some t ∧ t ≤ T) := by
  induction trace generalizing s with
  | nil => exact Or.inl ⟨hr, ha⟩
  | cons te rest ih =>
    rw [runFrom_cons]
    rcases wstep_resolve_cases tabId s te.1 te.2 hr ha with ⟨h1, h2⟩ | ⟨h1, h2⟩
    · exact ih _ h1 h2 (fun x hx => hT x (List.mem_cons_of_mem te hx))
    · right
      obtain ⟨h3, h4⟩ := runFrom_resolved_mono tabId _ rest h1
      exact ⟨h3, te.1, h4.trans h2, hT te (List.mem_cons_self te rest)⟩

/-- An unresolved `waitForPageLoad` state still has its timer registered
(the only steps that clear the timer also resolve the promise). -/
theorem wstep_timer_resolved (tabId : Nat) (s : WaitState) (t : Nat) (e : WEvent)
    (h : s.timerActive = false → s.resolved = true) :
    (wstep tabId s t e).timerActive = false →
      (wstep tabId s t e).resolved = true := by
  cases e with
  | timerFire =>
    simp only [wstep]
    split
    · exact fun _ => resolveAt_resolved t _
    · exact h
  | tabUpdated tid status =>
    simp only [wstep]
    split
    · split
      · exact fun _ => resolveAt_resolved t _
      · exact h
    · exact h
  | getResolved result =>
    cases result with
    | none => exact fun _ => resolveAt_resolved t _
    | some st =>
      cases st with
      | loading => exact h
      | complete => exact fun _ => resolveAt_resolved t _

theorem runFrom_timer_resolved (tabId : Nat) (s : WaitState)
    (trace : List (Nat × WEvent))
    (h : s.timerActive = false → s.resolved = true) :
    (runFrom tabId s trace).timerActive = false →
      (runFrom tabId s trace).resolved = true := by
  induction trace generalizing s with
  | nil => exact h
  | cons te rest ih =>
    rw [runFrom_cons]
    exact ih _ (wstep_timer_resolved tabId s te.1 te.2 h)

/-- C1: the load-wait race is mutually cancelling.  On every resolution
path `cleanup` clears the pending timeout and removes the `onUpdated`
listener, so once the promise resolved no timer and no listener remains
registered, and any further events (later timer deadlines, tab updates,
the status-query settling) leave the cycle state — in particular the
count of observed timeout firings and load-complete notifications —
completely unchanged. -/
theorem waitForPageLoad_cancellation (tabId : Nat) (p q : List (Nat × WEvent))
    (h : (runTrace tabId p).resolved = true) :
    (runTrace tabId p).timerActive = false ∧
      (runTrace tabId p).listenerActive = false ∧
      runTrace tabId (p ++ q) = runTrace tabId p := by
  have hinit : initWaitState.resolved = true →
      initWaitState.timerActive = false ∧ initWaitState.listenerActive = false := by
    decide
  obtain ⟨ht, hl⟩ := runFrom_cleaned tabId initWaitState p hinit h
  refine ⟨ht, hl, ?_⟩
  unfold runTrace at *
  rw [runFrom_append]
  exact runFrom_frozen tabId _ q h ht hl

/-- C1 witness: a cycle resolved by the already-complete check has no
registrations left, and a later timeout deadline changes nothing. -/
theorem waitForPageLoad_cancellation_witness :
    (runTrace 7 [(3, WEvent.getResolved (some TabStatus.complete))]).resolved = true ∧
      ((runTrace 7 [(3, WEvent.getResolved (some TabStatus.complete))]).timerActive = false ∧
        (runTrace 7 [(3, WEvent.getResolved (some TabStatus.complete))]).listenerActive = false ∧
        runTrace 7 ([(3, WEvent.getResolved (some TabStatus.complete))] ++
            [(PAGE_LOAD_TIMEOUT, WEvent.timerFire)]) =
          runTrace 7 [(3, WEvent.getResolved (some TabStatus.complete))]) :=
  ⟨by decide, waitForPageLoad_cancellation 7 _ _ (by decide)⟩

/-- C2: `waitForPageLoad` always resolves within the 15000 ms bound.  For
every time-ordered trace that contains the timeout deadline at
`PAGE_LOAD_TIMEOUT` (the runtime delivers it unless the timer was cleared,
and every path that clears the timer resolves the promise), the promise is
resolved, at a time at most `PAGE_LOAD_TIMEOUT`.  The executor never calls
`reject`: the timeout branch, the matching-listener branch, and both the
already-complete and the error branch of the status check all `resolve`
(`wstep` has no rejection outcome), so a timeout or a failed
`chrome.tabs.get` is not a cycle failure. -/
theorem waitForPageLoad_resolves (tabId : Nat) (trace : List (Nat × WEvent))
    (hsorted : trace.Pairwise (fun a b => a.1 ≤ b.1))
    (hmem : (PAGE_LOAD_TIMEOUT, WEvent.timerFire) ∈ trace) :
    (runTrace tabId trace).resolved = true ∧
      ∃ t, (runTrace tabId trace).resolvedAt = some t ∧ t ≤ PAGE_LOAD_TIMEOUT := by
  obtain ⟨l₁, l₂, rfl⟩ := List.append_of_mem hmem
  have hbound : ∀ te ∈ l₁, te.1 ≤ PAGE_LOAD_TIMEOUT := by
    rw [List.pairwise_append] at hsorted
    intro te hte
    exact hsorted.2.2 te hte _ (List.mem_cons_self _ _)
  unfold runTrace
  rw [runFrom_append, runFrom_cons]
  have hinit_res : initWaitState.resolved = false := by decide
  have hinit_at : initWaitState.resolvedAt = none := by decide
  have hinit_timer : initWaitState.timerActive = false → initWaitState.resolved = true := by
    decide
  rcases runFrom_resolve_bound tabId initWaitState l₁ PAGE_LOAD_TIMEOUT hinit_res
      hinit_at hbound with ⟨h1, h2⟩ | ⟨h1, t, h2, h3⟩
  · -- still unresolved when the deadline arrives: the timer is necessarily
    -- still registered, so the timeout callback resolves at the deadline
    have htimer : (runFrom tabId initWaitState l₁).timerActive = true := by
      by_contra hx
      rw [Bool.not_eq_true] at hx
      rw [runFrom_timer_resolved tabId initWaitState l₁ hinit_timer hx] at h1
      exact Bool.true_eq_false ▸ h1
    have hstep : (wstep tabId (runFrom tabId initWaitState l₁) PAGE_LOAD_TIMEOUT
        WEvent.timerFire).resolved = true ∧
        (wstep tabId (runFrom tabId initWaitState l₁) PAGE_LOAD_TIMEOUT
          WEvent.timerFire).resolvedAt = some PAGE_LOAD_TIMEOUT := by
      simp only [wstep, htimer, if_true]
      unfold resolveAt cleanup
      simp [h1]
    obtain ⟨h4, h5⟩ := runFrom_resolved_mono tabId _ l₂ hstep.1
    exact ⟨h4, PAGE_LOAD_TIMEOUT, h5.trans hstep.2, le_refl _⟩
  · -- already resolved before the deadline; resolution is stable
    obtain ⟨h4, h5⟩ := wstep_resolved_mono tabId _ PAGE_LOAD_TIMEOUT WEvent.timerFire h1
    obtain ⟨h6, h7⟩ := runFrom_resolved_mono tabId _ l₂ h4
    exact ⟨h6, t, (h7.trans h5).trans h2, h3⟩

/-- C2 witness: the trace consisting of just the timeout deadline is
time-ordered and resolves at exactly 15000 ms. -/
theorem waitForPageLoad_resolves_witness :
    ([((PAGE_LOAD_TIMEOUT : Nat), WEvent.timerFire)].Pairwise (fun a b => a.1 ≤ b.1)) ∧
      ((PAGE_LOAD_TIMEOUT, WEvent.timerFire) ∈
        [((PAGE_LOAD_TIMEOUT : Nat), WEvent.timerFire)]) ∧
      ((runTrace 0 [((PAGE_LOAD_TIMEOUT : Nat), WEvent.timerFire)]).resolved = true ∧
        ∃ t, (runTrace 0 [((PAGE_LOAD_TIMEOUT : Nat), WEvent.timerFire)]).resolvedAt
            = some t ∧ t ≤ PAGE_LOAD_TIMEOUT) :=
  ⟨List.pairwise_singleton _ _, List.mem_cons_self _ _,
    waitForPageLoad_resolves 0 _ (List.pairwise_singleton _ _)
      (List.mem_cons_self _ _)⟩

/-- C4 counterexample: the claim that the already-loaded status check is
performed before either the timeout timer or the load-complete listener is
registered is false — when the executor issues the `chrome.tabs.get`
query, both are already registered. -/
theorem waitForPageLoad_check_order_counterexample :
    ¬(initWaitState.timerActiveAtQuery = false ∧
      initWaitState.listenerActiveAtQuery = false) := by
  decide

/-- C4 (amended): the already-loaded status check is issued only AFTER
both the timeout timer (line 141) and the load-complete listener
(line 156) are registered, and its result is handled asynchronously; if
the tab is already `complete`, the handler cleans up both registrations
and resolves. -/
theorem waitForPageLoad_check_after_registration :
    initWaitState.queryIssued = true ∧
      initWaitState.timerActiveAtQuery = true ∧
      initWaitState.listenerActiveAtQuery = true ∧
      wstep 0 initWaitState 0 (WEvent.getResolved (some TabStatus.complete)) =
        { initWaitState with
            timerActive := false, listenerActive := false,
            resolved := true, resolvedAt := some 0 } := by
  decide

/-! ## Claim theorems for filename generation, URL selection and the cycle -/

/-- C3 counterexample: the host component is NOT the hostname with a
leading `www.` prefix stripped — `replace('www.', '')` removes the first
occurrence of `www.` wherever it appears, so the hostname
`en.www.example.com` (which has no leading `www.` prefix) still loses its
inner `www.`, and the generated filename differs from the one the claim
predicts. -/
theorem generateFilename_counterexample :
    generateFilename "https://en.www.example.com" "2024-01-15T10:30:00.000Z"
        = "screenshot_en.example.com_2024-01-15T10-30-00.png" ∧
      generateFilenameSpec "https://en.www.example.com" "2024-01-15T10:30:00.000Z"
        = "screenshot_en.www.example.com_2024-01-15T10-30-00.png" ∧
      generateFilename "https://en.www.example.com" "2024-01-15T10:30:00.000Z"
        ≠ generateFilenameSpec "https://en.www.example.com" "2024-01-15T10:30:00.000Z" :=
  ⟨by decide, by decide, by decide⟩

/-- C3 (amended): the filename is a deterministic function of
(sourceUrl, timestamp) of the form `screenshot_<host>_<timestamp>.png`,
where `<host>` removes the FIRST occurrence of `www.` from the hostname.
Whenever the hostname actually starts with `www.` this coincides with
stripping the leading prefix, as the spec describes — in particular the
documented example input produces the documented filename. -/
theorem generateFilename_amended (url iso : String)
    (h : "www.".data.isPrefixOf (urlHostname url).data = true) :
    generateFilename url iso = generateFilenameSpec url iso := by
  have hlen : "www.".data.length = 4 := rfl
  have hnil : ("" : String).data = [] := rfl
  unfold generateFilename generateFilenameSpec jsReplaceFirst stripLeadingWww
  rw [replaceFirstList_of_match _ _ _ (by decide) h, hlen, hnil, if_pos h,
    List.nil_append]

/-- C3 amended witness: the documented example. -/
theorem generateFilename_amended_witness :
    ("www.".data.isPrefixOf (urlHostname "https://www.example.com").data = true) ∧
      generateFilename "https://www.example.com" "2024-01-15T10:30:00.000Z"
        = generateFilenameSpec "https://www.example.com" "2024-01-15T10:30:00.000Z" ∧
      generateFilename "https://www.example.com" "2024-01-15T10:30:00.000Z"
        = "screenshot_example.com_2024-01-15T10-30-00.png" :=
  ⟨by decide, generateFilename_amended _ _ (by decide), by decide⟩

/-- C9: for every `Math.random()` draw in `[0,1)`, `getRandomUrl` returns
exactly one element of the fixed four-entry `TARGET_URLS` list (the
computed index is always in bounds), and the draws selecting index `k`
form exactly the window `[k/4, (k+1)/4)` — four windows of equal width
`1/4`, so a uniform draw selects each URL with equal probability, with
repeats allowed and independence across cycles inherited from the
independence of the draws. -/
theorem getRandomUrl_selects (r : ℚ) (h0 : 0 ≤ r) (h1 : r < 1) :
    (∃ url, getRandomUrl r = some url ∧ url ∈ TARGET_URLS) ∧
      (∀ k : ℕ, k < 4 →
        (randomIndex r = k ↔ ((k : ℚ) / 4 ≤ r ∧ r < ((k : ℚ) + 1) / 4))) := by
  constructor
  · have hlt := randomIndex_lt r h0 h1
    exact ⟨TARGET_URLS.get ⟨randomIndex r, hlt⟩,
      List.getElem?_eq_getElem hlt, List.get_mem TARGET_URLS (randomIndex r) hlt⟩
  · exact fun k hk => randomIndex_eq_iff r k h0 hk

/-- C9 witness: the draw `1/2` is in range and selects the third URL. -/
theorem getRandomUrl_selects_witness :
    ((0 : ℚ) ≤ 1/2) ∧ ((1/2 : ℚ) < 1) ∧
      ((∃ url, getRandomUrl (1/2) = some url ∧ url ∈ TARGET_URLS) ∧
        (∀ k : ℕ, k < 4 →
          (randomIndex (1/2) = k ↔
            ((k : ℚ) / 4 ≤ 1/2 ∧ (1/2 : ℚ) < ((k : ℚ) + 1) / 4)))) :=
  ⟨by norm_num, by norm_num,
    getRandomUrl_selects (1/2) (by norm_num) (by norm_num)⟩

/-- The `takeScreenshotNow` handler can only ever answer `success: true`:
the promise returned by `takeScreenshot()` always fulfills because its
body catches every error (lines 96-99), so the handler's `.catch` branch
is dead code. -/
theorem handleTakeScreenshotNow_success (env : CycleEnv) (s : BGState) :
    (handleTakeScreenshotNow env s).2 = { success := true } := rfl

/-- C5 counterexample: capture succeeds, save fails — the claim predicts
the `takeScreenshotNow` command answers `success: false`, but the handler
answers `success: true` (the `catch` inside `takeScreenshot` absorbs the
save failure before the handler's `.catch` can observe it). -/
theorem persistError_response_counterexample :
    ¬((handleTakeScreenshotNow envSaveFail sampleRunning).2.success = false) := by
  intro h
  exact absurd (congrArg MsgResponse.success
    (handleTakeScreenshotNow_success envSaveFail sampleRunning) ▸ h) (by decide)

/-- C5 (amended): a save failure (`PersistError`) aborts the rest of the
cycle — `updateStats` is not reached, so `totalScreenshots`, `lastRun`
(and the whole stored record) and the download list are unchanged, and
the running flag and the periodic schedule are untouched — but because
`takeScreenshot` catches every cycle error internally, the
`takeScreenshotNow` command is still answered with `success: true`. -/
theorem persistError_aborts_cycle (env : CycleEnv) (s : BGState)
    (hc : env.captureOk = true) (hs : env.saveOk = false) :
    (takeScreenshot env s).storage = s.storage ∧
      (takeScreenshot env s).downloads = s.downloads ∧
      (takeScreenshot env s).isRunning = s.isRunning ∧
      (takeScreenshot env s).intervals = s.intervals ∧
      (handleTakeScreenshotNow env s).2 = { success := true } := by
  unfold takeScreenshot runCycleSteps
  cases hg : getRandomUrl env.randomVal with
  | none => exact ⟨rfl, rfl, rfl, rfl, rfl⟩
  | some url =>
    simp only [hc, hs, if_true, Bool.false_eq_true, if_false]
    exact ⟨trivial, trivial, trivial, trivial, rfl⟩

/-- C5 amended witness. -/
theorem persistError_aborts_cycle_witness :
    (envSaveFail.captureOk = true) ∧ (envSaveFail.saveOk = false) ∧
      ((takeScreenshot envSaveFail sampleRunning).storage = sampleRunning.storage ∧
        (takeScreenshot envSaveFail sampleRunning).downloads = sampleRunning.downloads ∧
        (takeScreenshot envSaveFail sampleRunning).isRunning = sampleRunning.isRunning ∧
        (takeScreenshot envSaveFail sampleRunning).intervals = sampleRunning.intervals ∧
        (handleTakeScreenshotNow envSaveFail sampleRunning).2 = { success := true }) :=
  ⟨rfl, rfl, persistError_aborts_cycle envSaveFail sampleRunning rfl rfl⟩

/-- C6: a failing storage get or set inside `updateStats` raises a
`StatsUpdateError` that is fully absorbed within `updateStats` (the
stored record is simply left as it was), it never propagates to
`takeScreenshot`, and a cycle hitting it is still answered with
`success: true` by the `takeScreenshotNow` handler. -/
theorem statsUpdateError_absorbed (env : CycleEnv) (s : BGState)
    (hfail : env.statsGetOk = false ∨ env.statsSetOk = false) :
    (∃ e, updateStatsInner s.storage env.statsGetOk env.statsSetOk env.now
        = Except.error e) ∧
      updateStats s.storage env.statsGetOk env.statsSetOk env.now = s.storage ∧
      (handleTakeScreenshotNow env s).2 = { success := true } := by
  refine ⟨?_, ?_, rfl⟩
  · rcases hfail with h | h
    · exact ⟨StatsUpdateError.getFailed, by simp [updateStatsInner, h]⟩
    · rcases hget : env.statsGetOk with _ | _
      · exact ⟨StatsUpdateError.getFailed, by simp [updateStatsInner]⟩
      · exact ⟨StatsUpdateError.setFailed, by simp [updateStatsInner, h]⟩
  · unfold updateStats updateStatsInner
    rcases hfail with h | h <;> rcases hget : env.statsGetOk with _ | _ <;>
      simp_all

/-- C6 witness: the stats-get failure is raised and absorbed, response
still `success: true`. -/
theorem statsUpdateError_absorbed_witness :
    (envStatsFail.statsGetOk = false ∨ envStatsFail.statsSetOk = false) ∧
      ((∃ e, updateStatsInner sampleRunning.storage envStatsFail.statsGetOk
          envStatsFail.statsSetOk envStatsFail.now = Except.error e) ∧
        updateStats sampleRunning.storage envStatsFail.statsGetOk
          envStatsFail.statsSetOk envStatsFail.now = sampleRunning.storage ∧
        (handleTakeScreenshotNow envStatsFail sampleRunning).2
          = { success := true }) :=
  ⟨Or.inl rfl, statsUpdateError_absorbed envStatsFail sampleRunning (Or.inl rfl)⟩

/-- For an in-range draw the selection yields an element of the list. -/
theorem getRandomUrl_isSome (r : ℚ) (h0 : 0 ≤ r) (h1 : r < 1) :
    ∃ url, getRandomUrl r = some url ∧ url ∈ TARGET_URLS := by
  have hlt := randomIndex_lt r h0 h1
  exact ⟨TARGET_URLS.get ⟨randomIndex r, hlt⟩,
    List.getElem?_eq_getElem hlt, List.get_mem TARGET_URLS (randomIndex r) hlt⟩

/-- A fully successful cycle bumps the counter by exactly one. -/
theorem totalCount_cycle_success (env : CycleEnv) (s : BGState)
    (hr0 : 0 ≤ env.randomVal) (hr1 : env.randomVal < 1)
    (hc : env.captureOk = true) (hsv : env.saveOk = true)
    (hg : env.statsGetOk = true) (hst : env.statsSetOk = true) :
    totalCount (takeScreenshot env s) = totalCount s + 1 := by
  obtain ⟨url, hurl, _⟩ := getRandomUrl_isSome env.randomVal hr0 hr1
  unfold totalCount takeScreenshot runCycleSteps
  rw [hurl]
  simp only [hc, hsv, if_true]
  unfold updateStats updateStatsInner
  simp [hg, hst]

/-- A cycle that fails at or before capture or save leaves the counter
(and the whole stored record) unchanged. -/
theorem totalCount_cycle_failure (env : CycleEnv) (s : BGState)
    (hfail : env.captureOk = false ∨ env.saveOk = false) :
    (takeScreenshot env s).storage = s.storage := by
  unfold takeScreenshot runCycleSteps
  cases hgu : getRandomUrl env.randomVal with
  | none => rfl
  | some url =>
    rcases hfail with h | h
    · simp [h]
    · by_cases hc : env.captureOk = true
      · simp [h, hc]
      · simp [hc]

/-- Any single cycle moves the counter up by zero or one. -/
theorem totalCount_cycle_mono (env : CycleEnv) (s : BGState) :
    totalCount s ≤ totalCount (takeScreenshot env s) := by
  unfold totalCount takeScreenshot runCycleSteps
  cases hgu : getRandomUrl env.randomVal with
  | none => exact le_refl _
  | some url =>
    by_cases hc : env.captureOk = true
    · by_cases hsv : env.saveOk = true
      · simp only [hc, hsv, if_true]
        unfold updateStats updateStatsInner
        by_cases hg : env.statsGetOk = true
        · by_cases hst : env.statsSetOk = true
          · simp [hg, hst]
          · simp [hg, hst]
        · simp [hg]
      · simp [hc, hsv]
    · simp [hc]

/-- C7: while the worker is running, the persisted `totalScreenshots`
counter is monotonically non-decreasing under every transition (a `start`
while running is a no-op, `stop` does not touch the counter, and a cycle
either increments it or leaves it alone); a cycle in which every step
succeeds increments it by exactly 1; and a cycle failing at capture or at
save leaves it unchanged. -/
theorem totalCount_monotone (s : BGState) (c : Cmd) (h : s.isRunning = true) :
    totalCount s ≤ totalCount (step s c) ∧
      (∀ env, c = Cmd.cycle env →
        0 ≤ env.randomVal → env.randomVal < 1 →
        env.captureOk = true → env.saveOk = true →
        env.statsGetOk = true → env.statsSetOk = true →
        totalCount (step s c) = totalCount s + 1) ∧
      (∀ env, c = Cmd.cycle env →
        (env.captureOk = false ∨ env.saveOk = false) →
        totalCount (step s c) = totalCount s) := by
  refine ⟨?_, ?_, ?_⟩
  · cases c with
    | start now newId =>
      simp only [step, startAutomatedScreenshots, h, if_true]
      exact le_refl _
    | stop =>
      simp only [step, stopAutomatedScreenshots, h]
      cases hid : s.intervalId <;> simp [totalCount]
    | cycle env => exact totalCount_cycle_mono env s
    | getStatus => exact le_refl _
  · rintro env rfl hr0 hr1 hc hsv hg hst
    exact totalCount_cycle_success env s hr0 hr1 hc hsv hg hst
  · rintro env rfl hfail
    show totalCount (takeScreenshot env s) = totalCount s
    unfold totalCount
    rw [totalCount_cycle_failure env s hfail]

/-- C7 witness: a successful cycle takes the counter of the sample
running state from 5 to 6. -/
theorem totalCount_monotone_witness :
    (sampleRunning.isRunning = true) ∧
      totalCount sampleRunning ≤ totalCount (step sampleRunning (Cmd.cycle envSuccess)) ∧
      totalCount (step sampleRunning (Cmd.cycle envSuccess)) = totalCount sampleRunning + 1 :=
  ⟨rfl,
    (totalCount_monotone sampleRunning (Cmd.cycle envSuccess) rfl).1,
    (totalCount_monotone sampleRunning (Cmd.cycle envSuccess) rfl).2.1 envSuccess rfl
      (by norm_num [envSuccess]) (by norm_num [envSuccess]) rfl rfl rfl rfl⟩

/-- C8: `start` is idempotent — a second `start` right after a first one
is the identity, so two consecutive starts leave exactly the schedule the
first one created; a `start` from the stopped state registers exactly one
new 60000 ms interval and invokes one cycle immediately; and `stop` when
not running changes nothing while its handler still acknowledges
`success: true`. -/
theorem start_stop_idempotent (s : BGState) (now₁ now₂ : String) (id₁ id₂ : Nat) :
    startAutomatedScreenshots (startAutomatedScreenshots s now₁ id₁) now₂ id₂
        = startAutomatedScreenshots s now₁ id₁ ∧
      (s.isRunning = false →
        (startAutomatedScreenshots s now₁ id₁).intervals
            = (id₁, 60000) :: s.intervals ∧
          (startAutomatedScreenshots s now₁ id₁).cyclesInvoked
            = s.cyclesInvoked + 1) ∧
      (s.isRunning = false →
        stopAutomatedScreenshots s = s ∧
          (handleStop s).2 = { success := true }) := by
  refine ⟨?_, ?_, ?_⟩
  · by_cases h : s.isRunning = true
    · simp [startAutomatedScreenshots, h]
    · simp only [Bool.not_eq_true] at h
      simp [startAutomatedScreenshots, h]
  · intro h
    simp [startAutomatedScreenshots, h, SCREENSHOT_INTERVAL]
  · intro h
    constructor
    · simp [stopAutomatedScreenshots, h]
    · rfl

/-- C8 witness: from the pristine stopped state, two starts leave one
60000 ms schedule, and a stop beforehand is a no-op answered with
`success: true`. -/
theorem start_stop_idempotent_witness :
    (({} : BGState).isRunning = false) ∧
      startAutomatedScreenshots (startAutomatedScreenshots {} "t1" 1) "t2" 2
        = startAutomatedScreenshots {} "t1" 1 ∧
      (startAutomatedScreenshots ({} : BGState) "t1" 1).intervals = [(1, 60000)] ∧
      (startAutomatedScreenshots ({} : BGState) "t1" 1).cyclesInvoked = 1 ∧
      stopAutomatedScreenshots {} = {} ∧
      (handleStop {}).2 = { success := true } :=
  ⟨rfl,
    (start_stop_idempotent {} "t1" "t2" 1 2).1,
    ((start_stop_idempotent {} "t1" "t2" 1 2).2.1 rfl).1,
    ((start_stop_idempotent {} "t1" "t2" 1 2).2.1 rfl).2,
    ((start_stop_idempotent {} "t1" "t2" 1 2).2.2 rfl).1,
    ((start_stop_idempotent {} "t1" "t2" 1 2).2.2 rfl).2⟩

/-- C10: a stopped-to-running transition overwrites the persisted record
with `isRunning: true`, a fresh `lastRun`, and `totalScreenshots: 0` —
whatever count a previous running period had accumulated is discarded. -/
theorem start_resets_storage (s : BGState) (now : String) (newId : Nat)
    (h : s.isRunning = false) :
    (startAutomatedScreenshots s now newId).storage
      = { isRunning := some true, lastRun := some now,
          totalScreenshots := some 0 } := by
  simp [startAutomatedScreenshots, h]

/-- C10 witness: starting from a stopped worker holding an old count of
42 resets the stored count to 0. -/
theorem start_resets_storage_witness :
    (sampleStopped.isRunning = false) ∧
      (sampleStopped.storage.totalScreenshots = some 42) ∧
      (startAutomatedScreenshots sampleStopped "2024-02-01T00:00:00.000Z" 9).storage
        = { isRunning := some true, lastRun := some "2024-02-01T00:00:00.000Z",
            totalScreenshots := some 0 } :=
  ⟨rfl, rfl, start_resets_storage sampleStopped "2024-02-01T00:00:00.000Z" 9 rfl⟩

end Background
